import Mathlib

/-!
Verification development for the vcat-test-vectors builder scripts.

The Python sources `vcat_testvector_builder.py` (the unified builder) and
`vcat_testvector_video_builder.py` (the standalone video builder) are embedded
shallowly below.  Pure text-processing code becomes Lean functions on
`String`/`List Char`; the external `ffmpeg` invocation is represented by its
result (`Except Unit String`, the captured stderr text or an exception);
filesystem trees are explicit inductive values.  Python values that can be
`None`, `int` or `str` are embedded as the inductive `PyVal`.
-/

namespace VcatSpec

/-- Embedding of Python's heterogeneous values as they appear in the
`get_video_details` result tuple: `None`, a non-negative `int`, or a `str`. -/
inductive PyVal where
  | pynone : PyVal
  | int (n : Nat) : PyVal
  | str (s : String) : PyVal
deriving DecidableEq, Repr

/-- Test `leadsWith pat s`: true when the character list `pat` is an initial
segment of `s` (helper for the substring test below). -/
def leadsWith : List Char → List Char → Bool
  | [], _ => true
  | _ :: _, [] => false
  | a :: ps, b :: ss => a = b && leadsWith ps ss

/-- Containment `containsSub pat s`: Python's `pat in s` substring containment test on
character lists. -/
def containsSub (pat : List Char) : List Char → Bool
  | [] => leadsWith pat []
  | c :: t => leadsWith pat (c :: t) || containsSub pat t

/-- Python's `pat in s` on strings. -/
def strContains (s pat : String) : Bool :=
  containsSub pat.toList s.toList

/-- Python's `s.lower()` (ASCII inputs, as produced by the MIME constants in
the source). -/
def lowerStr (s : String) : String :=
  ⟨s.toList.map Char.toLower⟩

/-- Split a character list on `'/'`, keeping empty pieces, like Python's
`s.split('/')`. -/
def splitSlash : List Char → List (List Char)
  | [] => [[]]
  | c :: t =>
    let r := splitSlash t
    if c = '/' then [] :: r
    else
      match r with
      | h :: rest => (c :: h) :: rest
      | [] => [[c]]

/-- Python's `s.split('/')[-1]`: the last component of a slash-separated
path string (the sources only ever apply this to paths with no trailing
slash). -/
def lastComp (s : String) : String :=
  ⟨(splitSlash s.toList).getLastD s.toList⟩

/-- Index of the last `'.'` in a character list, or `none`; embeds Python's
`name.rfind('.')` (with `none` standing for the `-1` result). -/
def rfindDot : List Char → Option Nat
  | [] => none
  | c :: t =>
    match rfindDot t with
    | some i => some (i + 1)
    | none => if c = '.' then some 0 else none

/-- CPython `pathlib.PurePath.stem` applied to a bare file name: strip the
final suffix, where a suffix needs a dot at an index `i` with
`0 < i < len - 1`. -/
def stemName (n : List Char) : List Char :=
  match rfindDot n with
  | some i => if 0 < i && i < n.length - 1 then n.take i else n
  | none => n

/-- Python's `Path(video_file).stem` from the unified builder: last path component
with its final extension removed. -/
def pathStem (s : String) : String :=
  ⟨stemName (lastComp s).toList⟩

/-- Python's `s.endswith(suf)` / the glob pattern `*<suf>`: the reversal of
`suf` is an initial segment of the reversal of `s`. -/
def endsWithStr (s suf : String) : Bool :=
  leadsWith suf.toList.reverse s.toList.reverse

/-- Match a literal character sequence at the head of the input, returning
the rest on success (building block for the regular-expression embeddings). -/
def dropLit : List Char → List Char → Option (List Char)
  | [], s => some s
  | _ :: _, [] => none
  | c :: cs, d :: ds => if c = d then dropLit cs ds else none

/-- Match exactly two decimal digits, returning their value as a number and
the rest of the input; embeds a `(\d{2})` group followed by `int(...)`. -/
def grab2 : List Char → Option (Nat × List Char)
  | a :: b :: rest =>
    if a.isDigit && b.isDigit then
      some (10 * (a.toNat - 48) + (b.toNat - 48), rest)
    else none
  | _ => none

/-- Attempt the regex `Duration: (\d{2}):(\d{2}):(\d{2})\.(\d{2})` at the
start of the input, returning the four numeric groups. -/
def tryDurationAt (s : List Char) : Option (Nat × Nat × Nat × Nat) := do
  let s ← dropLit "Duration: ".toList s
  let (h, s) ← grab2 s
  let s ← dropLit [':'] s
  let (m, s) ← grab2 s
  let s ← dropLit [':'] s
  let (sec, s) ← grab2 s
  let s ← dropLit ['.'] s
  let (c, _) ← grab2 s
  pure (h, m, sec, c)

/-- Search `re.search(r"Duration: (\d{2}):(\d{2}):(\d{2})\.(\d{2})", s)`: leftmost
match of the duration pattern, as the four numeric groups. -/
def findDuration : List Char → Option (Nat × Nat × Nat × Nat)
  | [] => tryDurationAt []
  | c :: t =>
    match tryDurationAt (c :: t) with
    | some r => some r
    | none => findDuration t

/-- Attempt the regex `, (\d+)x(\d+),` at the start of the input, returning
the two digit-run groups.  The greedy `\d+` is exact maximal munch here
because the following literals `x` and `,` are not digits. -/
def tryResAt (s : List Char) : Option (List Char × List Char) := do
  let s ← dropLit ", ".toList s
  let (d1, s) := s.span Char.isDigit
  if d1.isEmpty then none else
  let s ← dropLit ['x'] s
  let (d2, s) := s.span Char.isDigit
  if d2.isEmpty then none else
  let _ ← dropLit [','] s
  pure (d1, d2)

/-- Search `re.search(r", (\d+)x(\d+),", s)`: leftmost match. -/
def findRes : List Char → Option (List Char × List Char)
  | [] => none
  | c :: t =>
    match tryResAt (c :: t) with
    | some r => some r
    | none => findRes t

/-- Attempt the regex `(\d+(\.\d+)?) fps` at the start of the input,
returning group 1.  Maximal munch is exact: after a shorter digit run the
next character is a digit, which can start neither the optional group nor
the literal `" fps"`, and when the optional group is applicable the
empty-group alternative always fails on the leading `'.'`. -/
def tryFpsAt (s : List Char) : Option (List Char) :=
  let (d1, s1) := s.span Char.isDigit
  if d1.isEmpty then none else
  match s1 with
  | '.' :: rest =>
    let (d2, s2) := rest.span Char.isDigit
    if d2.isEmpty then
      (dropLit " fps".toList s1).map (fun _ => d1)
    else
      (dropLit " fps".toList s2).map (fun _ => d1 ++ '.' :: d2)
  | other => (dropLit " fps".toList other).map (fun _ => d1)

/-- Search `re.search(r"(\d+(\.\d+)?) fps", s)`: leftmost match, group 1. -/
def findFps : List Char → Option (List Char)
  | [] => none
  | c :: t =>
    match tryFpsAt (c :: t) with
    | some r => some r
    | none => findFps t

/-- The film-grain suffix loop shared verbatim by both `generate_header_title`
implementations: append `-<marker>` for the first of `fd0, fd1, fd2` that is
a substring of the original file name, breaking at the first hit. -/
def fdSuffix (video_file : String) : String :=
  if strContains video_file "fd0" then "-fd0"
  else if strContains video_file "fd1" then "-fd1"
  else if strContains video_file "fd2" then "-fd2"
  else ""

namespace ub

/-- Function `get_video_details` from `vcat_testvector_builder.py` (lines 137-184) as
a function of the outcome of the `ffmpeg` invocation: `Except.error ()` is a
raised exception (missing binary, I/O error), `Except.ok s` is a run whose
captured stderr text is `s`.  The `f"{float(...):g}"` frame-rate formatting
is floating-point and is passed in as the abstract parameter `fmtG`. -/
def get_video_details (fmtG : String → String) (tool : Except Unit String) :
    PyVal × PyVal × PyVal × PyVal :=
  match tool with
  | .error _ => (.str "unknown", .str "unknown", .str "unknown", .str "unknown")
  | .ok stderrOutput =>
    let codec : String :=
      if strContains stderrOutput "Video: av1" then "video/av1"
      else if strContains stderrOutput "Video: vp9" then "video/mp4; codecs=\"vp09\""
      else if strContains stderrOutput "Video: vvc" then "video/mp4; codecs=\"vvc\""
      else "Unknown"
    let durationMs : PyVal :=
      match findDuration stderrOutput.toList with
      | some (h, m, sec, c) => .int ((h * 3600 + m * 60 + sec) * 1000 + c * 10)
      | none => .pynone
    let resolutionXY : PyVal :=
      match findRes stderrOutput.toList with
      | some (w, ht) => .str (⟨w⟩ ++ "X" ++ ⟨ht⟩)
      | none => .pynone
    let frameRate : PyVal :=
      match findFps stderrOutput.toList with
      | some g => .str (fmtG ⟨g⟩)
      | none => .str "unknown"
    (.str codec, durationMs, resolutionXY, frameRate)

/-- Function `generate_header_title` from `vcat_testvector_builder.py` (lines
187-207).  The fallback is `Path(video_file).stem`. -/
def generate_header_title (video_file video_mime_type resolution_x_y frame_rate : String) :
    String :=
  let base :=
    if strContains (lowerStr video_mime_type) "av1" then
      "av1-" ++ resolution_x_y ++ "p" ++ frame_rate ++ "fps"
    else if strContains (lowerStr video_mime_type) "vvc" then
      "vvc-" ++ resolution_x_y ++ "p" ++ frame_rate ++ "fps"
    else if strContains (lowerStr video_mime_type) "vp09" then
      "vp9-" ++ resolution_x_y ++ "p" ++ frame_rate ++ "fps"
    else ""
  let base := if base = "" then pathStem video_file else base
  base ++ fdSuffix video_file

end ub

namespace vb

/-- Function `get_video_details` from `vcat_testvector_video_builder.py` (lines
43-92), embedded exactly like the unified builder's copy. -/
def get_video_details (fmtG : String → String) (tool : Except Unit String) :
    PyVal × PyVal × PyVal × PyVal :=
  match tool with
  | .error _ => (.str "unknown", .str "unknown", .str "unknown", .str "unknown")
  | .ok stderrOutput =>
    let codec : String :=
      if strContains stderrOutput "Video: av1" then "video/av1"
      else if strContains stderrOutput "Video: vp9" then "video/mp4; codecs=\"vp09\""
      else if strContains stderrOutput "Video: vvc" then "video/mp4; codecs=\"vvc\""
      else "Unknown"
    let durationMs : PyVal :=
      match findDuration stderrOutput.toList with
      | some (h, m, sec, c) => .int ((h * 3600 + m * 60 + sec) * 1000 + c * 10)
      | none => .pynone
    let resolutionXY : PyVal :=
      match findRes stderrOutput.toList with
      | some (w, ht) => .str (⟨w⟩ ++ "X" ++ ⟨ht⟩)
      | none => .pynone
    let frameRate : PyVal :=
      match findFps stderrOutput.toList with
      | some g => .str (fmtG ⟨g⟩)
      | none => .str "unknown"
    (.str codec, durationMs, resolutionXY, frameRate)

/-- Function `generate_header_title` from `vcat_testvector_video_builder.py` (lines
95-115).  The fallback is `video_file.split('/')[-1]`, which keeps the file
extension. -/
def generate_header_title (video_file video_mime_type resolution_x_y frame_rate : String) :
    String :=
  let base :=
    if strContains (lowerStr video_mime_type) "av1" then
      "av1-" ++ resolution_x_y ++ "p" ++ frame_rate ++ "fps"
    else if strContains (lowerStr video_mime_type) "vvc" then
      "vvc-" ++ resolution_x_y ++ "p" ++ frame_rate ++ "fps"
    else if strContains (lowerStr video_mime_type) "vp09" then
      "vp9-" ++ resolution_x_y ++ "p" ++ frame_rate ++ "fps"
    else ""
  let base := if base = "" then lastComp video_file else base
  base ++ fdSuffix video_file

end vb

example : findDuration "Duration: 01:02:03.45".toList = some (1, 2, 3, 45) := by decide

example :
    (ub.get_video_details (fun s => s) (Except.ok "x Duration: 01:02:03.45 y")).2.1 =
      .int 3723450 := by decide

example :
    ub.generate_header_title "clip_fd1.mp4" "video/av1" "1920X1080" "30" =
      "av1-1920X1080p30fps-fd1" := by decide

example : vb.generate_header_title "media/clip.mp4" "Unknown" "640X480" "25" = "clip.mp4" := by
  decide

example : ub.generate_header_title "media/clip.mp4" "Unknown" "640X480" "25" = "clip" := by
  decide

/-
Media-file discovery.  A directory tree is modelled explicitly; `os.walk`
visits a node's files first and then recurses into the subdirectories that
survive the in-place pruning `dirs[:] = [d for d in dirs if d not in
('.DS_Store', '__MACOSX')]`.  Paths are lists of components.
-/

mutual

inductive FSTree : Type where
  | node (files : List String) (dirs : DirList) : FSTree

inductive DirList : Type where
  | dnil : DirList
  | dcons (name : String) (tree : FSTree) (rest : DirList) : DirList

end

mutual

/-- The `os.walk` loop of both builders' `get_video_files_from_folder`:
collect every file under the tree except files named `.DS_Store`, not
recursing into directories named `.DS_Store` or `__MACOSX`.  `pre` is the
component path of the current root. -/
def walkTree (pre : List String) : FSTree → List (List String)
  | .node files dirs =>
    (files.filter (fun n => n ≠ ".DS_Store")).map (fun n => pre ++ [n]) ++
      walkDirs pre dirs

/-- Walk the surviving subdirectories in order. -/
def walkDirs (pre : List String) : DirList → List (List String)
  | .dnil => []
  | .dcons name tree rest =>
    if name = ".DS_Store" ∨ name = "__MACOSX" then walkDirs pre rest
    else walkTree (pre ++ [name]) tree ++ walkDirs pre rest

end

/-- State of the `media` folder an invocation sees: missing, present but
not readable (`os.access` fails), or readable with a directory tree. -/
inductive MediaFolder : Type where
  | absent : MediaFolder
  | present (readable : Bool) (tree : FSTree) : MediaFolder

/-- Errors raised by the unified builder's discovery. -/
inductive DiscoveryError : Type where
  | notFound : DiscoveryError
  | permissionDenied : DiscoveryError
deriving DecidableEq, Repr

namespace ub

/-- Function `get_video_files_from_folder` from `vcat_testvector_builder.py` (lines
117-134): raise `FileNotFoundError` when the media folder does not exist,
`PermissionError` when it is not readable, otherwise walk it.  Returned
paths are component lists relative to the media folder. -/
def get_video_files_from_folder : MediaFolder → Except DiscoveryError (List (List String))
  | .absent => .error .notFound
  | .present false _ => .error .permissionDenied
  | .present true t => .ok (walkTree [] t)

end ub

namespace vb

/-- Child relative path: `os.path.relpath` of the media folder itself is
`"."`, and `os.path.join` of `"."` with a name drops the dot only in the
sense that deeper roots get their plain component paths. -/
def relChild (rel : List String) (name : String) : List String :=
  if rel = ["."] then [name] else rel ++ [name]

mutual

/-- The `os.walk` loop of the standalone video builder: like the unified
builder's, but each file is recorded as
`os.path.join("media", os.path.relpath(root, media_folder), name)`. -/
def vbWalkTree (rel : List String) : FSTree → List (List String)
  | .node files dirs =>
    (files.filter (fun n => n ≠ ".DS_Store")).map (fun n => "media" :: rel ++ [n]) ++
      vbWalkDirs rel dirs

/-- Walk the surviving subdirectories in order. -/
def vbWalkDirs (rel : List String) : DirList → List (List String)
  | .dnil => []
  | .dcons name tree rest =>
    if name = ".DS_Store" ∨ name = "__MACOSX" then vbWalkDirs rel rest
    else vbWalkTree (relChild rel name) tree ++ vbWalkDirs rel rest

end

/-- Function `get_video_files_from_folder` from `vcat_testvector_video_builder.py`
(lines 15-40): when the media folder is missing or unreadable it prints an
error and returns the empty list; otherwise it walks the tree with paths
rooted at the `media` component (the top-level relative path is `"."`). -/
def get_video_files_from_folder : MediaFolder → List (List String)
  | .absent => []
  | .present false _ => []
  | .present true t => vbWalkTree ["."] t

end vb

mutual

/-- Every path produced by the walk is the current root plus a run of
surviving directory components and a file name that is not `.DS_Store`;
no surviving component is `.DS_Store` or `__MACOSX`. -/
theorem walkTree_clean (pre : List String) (t : FSTree) :
    ∀ p ∈ walkTree pre t, ∃ mid fn, p = pre ++ mid ++ [fn] ∧
      fn ≠ ".DS_Store" ∧ ".DS_Store" ∉ mid ∧ "__MACOSX" ∉ mid := by
  cases t with
  | node files dirs =>
    intro p hp
    rw [walkTree, List.mem_append] at hp
    rcases hp with hp | hp
    · rcases List.mem_map.1 hp with ⟨n, hn, rfl⟩
      rcases List.mem_filter.1 hn with ⟨-, hne⟩
      exact ⟨[], n, by simp, by simpa using hne, by simp, by simp⟩
    · exact walkDirs_clean pre dirs p hp

/-- Companion of `walkTree_clean` for the subdirectory loop. -/
theorem walkDirs_clean (pre : List String) (ds : DirList) :
    ∀ p ∈ walkDirs pre ds, ∃ mid fn, p = pre ++ mid ++ [fn] ∧
      fn ≠ ".DS_Store" ∧ ".DS_Store" ∉ mid ∧ "__MACOSX" ∉ mid := by
  cases ds with
  | dnil => intro p hp; simp [walkDirs] at hp
  | dcons name tree rest =>
    intro p hp
    rw [walkDirs] at hp
    by_cases h : name = ".DS_Store" ∨ name = "__MACOSX"
    · rw [if_pos h] at hp
      exact walkDirs_clean pre rest p hp
    · rw [if_neg h] at hp
      push_neg at h
      rcases List.mem_append.1 hp with hp | hp
      · rcases walkTree_clean (pre ++ [name]) tree p hp with ⟨mid, fn, rfl, h1, h2, h3⟩
        refine ⟨name :: mid, fn, by simp, h1, ?_, ?_⟩
        · simp [List.mem_cons]
          exact ⟨fun he => h.1 he.symm, h2⟩
        · simp [List.mem_cons]
          exact ⟨fun he => h.2 he.symm, h3⟩
      · exact walkDirs_clean pre rest p hp

end

/-
Shared document envelope.  The `vcat_testvector_datamodels` module is
imported by every builder script but is not part of the sources at hand.
-/

/-- Modelled from the spec: the `VcatTestVectorHeader` record of the absent
`vcat_testvector_datamodels` module — "{name, description, created_by, uuid
(generated fresh per header), timestamp}"; its `to_dict` serializes exactly
these five fields. -/
structure Header where
  name : String
  description : String
  created_by : String
  uuid : String
  timestamp : String
deriving DecidableEq, Repr

/-- Modelled from the spec: the serialized form of a header inside an
output file, one line per field of its `to_dict`. -/
def Header.lines (h : Header) : List String :=
  [h.name, h.description, h.created_by, h.uuid, h.timestamp]

/-
Catalog generation and index generation (unified builder, steps 3 and 4).
-/

/-- Header fields `generate_catalog` reads out of a playlist file. -/
structure PlaylistHdr where
  name : String
  uuid : String
  description : String
deriving DecidableEq, Repr

/-- One file of the manifest directory as the catalog pass sees it: its
name, the parse outcome of its JSON header (`none` when reading or parsing
raises, in which case the item is skipped), and the checksum and byte size
the pass computes for it. -/
structure PlaylistFile where
  fname : String
  parsed : Option PlaylistHdr
  checksum : String
  lengthBytes : Nat
deriving DecidableEq, Repr

/-- Record `VcatTestVectorPlaylistAsset`: reference record pointing at a playlist
or manifest file.  Modelled from the spec: "{name, url, checksum of the
referenced document's bytes, length_bytes, uuid (copied from the referenced
document's header), description}". -/
structure PlaylistAsset where
  name : String
  url : String
  checksum : String
  lengthBytes : Nat
  uuid : String
  description : String
deriving DecidableEq, Repr

/-- Serialized form of a playlist asset, one line per field. -/
def PlaylistAsset.lines (a : PlaylistAsset) : List String :=
  [a.name, a.url, a.checksum, toString a.lengthBytes, a.uuid, a.description]

/-- A catalog document: header plus the collected playlist assets. -/
structure CatalogDoc where
  hdr : Header
  playlists : List PlaylistAsset
deriving DecidableEq, Repr

/-- Function `generate_catalog` from `vcat_testvector_builder.py` (lines 313-360)
over the manifest-directory listing `files` (in glob order).  A `some`
result is the document written to the catalog file; `none` means the pass
returned `None` before the single `json.dump`, so nothing was written.
Items whose read or parse raises are skipped. -/
def generate_catalog (catalogName description createdBy uuid timestamp : String)
    (files : List PlaylistFile) : Option CatalogDoc :=
  let playlist_files := files.filter (fun f => endsWithStr f.fname "_playlist.json")
  if playlist_files.isEmpty then none
  else
    some
      { hdr := ⟨catalogName, description, createdBy, uuid, timestamp⟩
        playlists :=
          playlist_files.filterMap (fun f =>
            f.parsed.map (fun h =>
              ⟨h.name, "./manifests/" ++ f.fname, f.checksum, f.lengthBytes,
                h.uuid, h.description⟩)) }

/-- Catalog-file content as the index pass sees it after `json.loads`:
whether the document has a `"playlists"` key, and its header fields. -/
structure CatalogJson where
  hasPlaylists : Bool
  hdrName : String
  hdrUuid : String
  hdrDescription : String
deriving DecidableEq, Repr

/-- The catalog file handed to `generate_index`: its name, parse outcome
(`none` when `json.loads` raises, which the outer handler turns into a
`None` result), checksum and byte size. -/
structure CatalogFile where
  fname : String
  parsed : Option CatalogJson
  checksum : String
  lengthBytes : Nat
deriving DecidableEq, Repr

/-- One entry of an index's `catalogs` list.  Existing entries are raw JSON
objects, so their `"url"` key may be missing (`url? = none`); the entry the
pass builds is a `VcatTestVectorCatalogAsset`, whose shape is modelled from
the spec like `PlaylistAsset`. -/
structure IdxEntry where
  url? : Option String
  name : String
  checksum : String
  lengthBytes : Nat
  uuid : String
  description : String
deriving DecidableEq, Repr

/-- State of the index file at the output path when `generate_index` runs:
missing, present but unreadable or unparsable (reading it raises), or
readable with its `catalogs` list. -/
inductive IndexFileState : Type where
  | absent : IndexFileState
  | unreadable : IndexFileState
  | readable (catalogs : List IdxEntry) : IndexFileState

/-- The catalog-asset entry `generate_index` builds for the catalog file. -/
def newCatalogEntry (cf : CatalogFile) (d : CatalogJson) : IdxEntry :=
  ⟨some ("./" ++ cf.fname), d.hdrName, cf.checksum, cf.lengthBytes,
    d.hdrUuid, d.hdrDescription⟩

/-- Function `generate_index` from `vcat_testvector_builder.py` (lines 367-435),
returning the `catalogs` list of the written index document (`none` when
the pass returns `None` without writing).  In merge mode (`append` set and
the index file present) the existing entries whose `url` equals the new
entry's url are dropped and the new entry is appended; an unreadable
existing index degrades to a fresh index. -/
def generate_index (append : Bool) (catalog? : Option CatalogFile)
    (existing : IndexFileState) : Option (List IdxEntry) :=
  match catalog? with
  | none => none
  | some cf =>
    match cf.parsed with
    | none => none
    | some data =>
      if !data.hasPlaylists then none
      else
        let rel_url := "./" ++ cf.fname
        let existing_catalogs : List IdxEntry :=
          if append then
            match existing with
            | .readable l => l.filter (fun c => c.url? ≠ some rel_url)
            | _ => []
          else []
        some (existing_catalogs ++ [newCatalogEntry cf data])

/-
The manifest → playlist → catalog chain of one build run, for comparing two
runs on unchanged input.  File contents are modelled as their field lines
(`List String`); the SHA-256 digest `utils.getChecksum` is the abstract
parameter `digest`, and a file's `st_size` is the total length of its
lines.
-/

/-- Python's `str(x)` for an optional string (`None` prints as `"None"`). -/
def pyStrOpt : Option String → String
  | some s => s
  | none => "None"

/-- Python's `str(x)` for an optional integer. -/
def pyStrOptNat : Option Nat → String
  | some n => toString n
  | none => "None"

/-- Record `VcatTestVectorVideoAsset`.  Modelled from the spec: "{name, url,
checksum (content digest), length_bytes, mime_type, duration_ms,
resolution, frame_rate}". -/
structure VideoAsset where
  name : String
  url : String
  checksum : String
  lengthBytes : Nat
  videoMimeType : String
  durationMs : Option Nat
  resolutionXY : Option String
  frameRate : String
deriving DecidableEq, Repr

/-- Serialized form of a video asset, one line per field. -/
def VideoAsset.lines (a : VideoAsset) : List String :=
  [a.name, a.url, a.checksum, toString a.lengthBytes, a.videoMimeType,
    pyStrOptNat a.durationMs, pyStrOpt a.resolutionXY, a.frameRate]

/-- A video manifest document: header plus media asset. -/
structure Manifest where
  hdr : Header
  asset : VideoAsset
deriving DecidableEq, Repr

/-- The byte content of a written manifest file, as its field lines. -/
def Manifest.lines (m : Manifest) : List String :=
  m.hdr.lines ++ m.asset.lines

/-- A playlist document: header plus its (singleton) media-asset list. -/
structure PlaylistDoc where
  hdr : Header
  media_assets : List PlaylistAsset
deriving DecidableEq, Repr

/-- The byte content of a written playlist file, as its field lines. -/
def PlaylistDoc.lines (p : PlaylistDoc) : List String :=
  p.hdr.lines ++ p.media_assets.flatMap PlaylistAsset.lines

/-- Size `st_size` of a file modelled as lines: total character count. -/
def encLen (l : List String) : Nat :=
  (l.map String.length).sum

/-- The run-independent inputs `generate_video_manifest` extracts from one
unchanged video file: its path string, file name, relative url, content
checksum and size, and the `get_video_details` fields. -/
structure VideoInput where
  pathStr : String
  name : String
  relUrl : String
  checksum : String
  lengthBytes : Nat
  videoMimeType : String
  durationMs : Option Nat
  resolutionXY : Option String
  frameRate : String
deriving DecidableEq, Repr

/-- Function `generate_video_manifest` from `vcat_testvector_builder.py` (lines
210-254) as a document: the header carries the derived title and
description together with the run's fresh `uuidM`/`tsM`, the media asset
carries the stable file-derived fields. -/
def mkManifest (createdBy : String) (v : VideoInput) (uuidM tsM : String) : Manifest :=
  let title := ub.generate_header_title v.pathStr v.videoMimeType
    (pyStrOpt v.resolutionXY) v.frameRate
  let description :=
    "VCAT Test asset: " ++ v.videoMimeType ++ ", " ++ pyStrOpt v.resolutionXY ++
      ", " ++ v.frameRate ++ "fps, " ++ pyStrOptNat v.durationMs ++ "ms"
  { hdr := ⟨title, description, createdBy, uuidM, tsM⟩
    asset := ⟨v.name, v.relUrl, v.checksum, v.lengthBytes, v.videoMimeType,
      v.durationMs, v.resolutionXY, v.frameRate⟩ }

/-- Output file name of the manifest: `f"{video_path.name}_video_manifest.json"`. -/
def manifestFname (v : VideoInput) : String :=
  v.name ++ "_video_manifest.json"

/-- Function `generate_playlist_from_manifest` from `vcat_testvector_builder.py`
(lines 261-306) applied to the manifest this run regenerated: the playlist
asset's checksum and length are computed from the regenerated manifest
file, its name/uuid/description are read back from the manifest header;
the playlist header gets the run's fresh `uuidP`/`tsP`. -/
def mkPlaylist (digest : List String → String) (createdBy : String) (v : VideoInput)
    (uuidM tsM uuidP tsP : String) : PlaylistDoc :=
  let m := mkManifest createdBy v uuidM tsM
  let mfile := Manifest.lines m
  let asset : PlaylistAsset :=
    ⟨m.hdr.name, "./manifests/" ++ manifestFname v, digest mfile, encLen mfile,
      m.hdr.uuid, m.hdr.description⟩
  { hdr := ⟨m.hdr.name, "Playlist for " ++ m.hdr.name, createdBy, uuidP, tsP⟩
    media_assets := [asset] }

/-- Output file name of the playlist:
`f"{playlist_header.name}_playlist.json"`. -/
def playlistFname (digest : List String → String) (createdBy : String) (v : VideoInput)
    (uuidM tsM uuidP tsP : String) : String :=
  (mkPlaylist digest createdBy v uuidM tsM uuidP tsP).hdr.name ++ "_playlist.json"

/-- The playlist asset the catalog pass (`generate_catalog`, lines 323-340)
builds for the regenerated playlist file: checksum and length of the
playlist file's bytes, name/uuid/description read from its header. -/
def mkCatalogPlaylistAsset (digest : List String → String) (createdBy : String)
    (v : VideoInput) (uuidM tsM uuidP tsP : String) : PlaylistAsset :=
  let p := mkPlaylist digest createdBy v uuidM tsM uuidP tsP
  ⟨p.hdr.name, "./manifests/" ++ playlistFname digest createdBy v uuidM tsM uuidP tsP,
    digest (PlaylistDoc.lines p), encLen (PlaylistDoc.lines p), p.hdr.uuid,
    p.hdr.description⟩

/-
Claim theorems.
-/

/-- C7: if invoking the external media-inspection tool raises any exception,
`get_video_details` (both the unified builder's and the standalone video
builder's copy) catches it and returns all four fields — codec, duration_ms,
resolution, frame_rate — as the string `"unknown"` instead of propagating
the exception. -/
theorem c7_tool_failure_degrades (fmtG : String → String) :
    ub.get_video_details fmtG (Except.error ()) =
      (.str "unknown", .str "unknown", .str "unknown", .str "unknown") ∧
    vb.get_video_details fmtG (Except.error ()) =
      (.str "unknown", .str "unknown", .str "unknown", .str "unknown") :=
  ⟨rfl, rfl⟩

/-- C9: the field-extraction logic duplicated in the unified builder and the
standalone video builder is extensionally identical: for every outcome of
the tool invocation (including the error path) and every frame-rate
formatter, the two `get_video_details` copies return equal tuples. -/
theorem c9_details_equivalence (fmtG : String → String) (tool : Except Unit String) :
    ub.get_video_details fmtG tool = vb.get_video_details fmtG tool := rfl

/-- C5 counterexample: the standalone video builder's
`get_video_files_from_folder` does not fail when the media folder is absent
or unreadable — it returns a normal empty file list in both cases,
contradicting the claim that discovery never returns a list there. -/
theorem c5_counterexample :
    vb.get_video_files_from_folder .absent = [] ∧
    vb.get_video_files_from_folder (.present false (.node ["a.mp4"] .dnil)) = [] :=
  ⟨rfl, rfl⟩

/-- C5 amended: the unified builder's discovery raises `FileNotFoundError`
when the media folder does not exist and `PermissionError` when it exists
but is unreadable, returning a file list only when the folder is readable;
the standalone video builder's discovery instead logs the error and returns
an empty list in both failure cases. -/
theorem c5_discovery_errors (t : FSTree) :
    ub.get_video_files_from_folder .absent = .error .notFound ∧
    ub.get_video_files_from_folder (.present false t) = .error .permissionDenied ∧
    ub.get_video_files_from_folder (.present true t) = .ok (walkTree [] t) ∧
    vb.get_video_files_from_folder .absent = [] ∧
    vb.get_video_files_from_folder (.present false t) = [] :=
  ⟨rfl, rfl, rfl, rfl, rfl⟩

/-- C1: in merge mode (`append_index` set) with a readable existing index,
`generate_index` produces a catalogs list equal to the existing entries
with every entry whose url equals the new entry's url removed, in their
original order, followed by the newly built entry; the resulting list has
exactly one entry carrying the new url; and when the existing index file is
unreadable the merge degrades to a fresh single-entry index. -/
theorem c1_index_merge (cf : CatalogFile) (d : CatalogJson) (ex : List IdxEntry)
    (hparse : cf.parsed = some d) (hpl : d.hasPlaylists = true) :
    generate_index true (some cf) (.readable ex) =
      some (ex.filter (fun c => c.url? ≠ some ("./" ++ cf.fname)) ++ [newCatalogEntry cf d]) ∧
    (ex.filter (fun c => c.url? ≠ some ("./" ++ cf.fname)) ++ [newCatalogEntry cf d]).countP
      (fun c => c.url? = some ("./" ++ cf.fname)) = 1 ∧
    generate_index true (some cf) .unreadable = some [newCatalogEntry cf d] := by
  refine ⟨?_, ?_, ?_⟩
  · simp [generate_index, hparse, hpl]
  · rw [List.countP_append]
    have h0 : (ex.filter (fun c => c.url? ≠ some ("./" ++ cf.fname))).countP
        (fun c => c.url? = some ("./" ++ cf.fname)) = 0 := by
      rw [List.countP_eq_zero]
      intro a ha
      rcases List.mem_filter.1 ha with ⟨-, hb⟩
      simpa using of_decide_eq_true hb
    rw [h0]
    simp [newCatalogEntry]
  · simp [generate_index, hparse, hpl]

/-- Catalog file used by the C1 witness: its new entry has url `./catA.json`. -/
def cfEx : CatalogFile :=
  ⟨"catA.json", some ⟨true, "A", "uA", "descA"⟩, "ck-new", 5⟩

/-- Stale index entry for url `./catA.json` in the C1 witness. -/
def aOld : IdxEntry := ⟨some "./catA.json", "A", "ck-old", 4, "uOld", "descA"⟩

/-- Unrelated index entry for url `./catB.json` in the C1 witness. -/
def bEnt : IdxEntry := ⟨some "./catB.json", "B", "ckB", 6, "uB", "descB"⟩

/-- C1 witness: merging an index holding entries for urls A and B with a new
entry for url A yields exactly B followed by the new A — no duplicate A —
and an unreadable index degrades to the single new entry. -/
theorem c1_index_merge_witness :
    generate_index true (some cfEx) (.readable [aOld, bEnt]) =
      some [bEnt, ⟨some "./catA.json", "A", "ck-new", 5, "uA", "descA"⟩] ∧
    generate_index true (some cfEx) .unreadable =
      some [⟨some "./catA.json", "A", "ck-new", 5, "uA", "descA"⟩] := by
  have h := c1_index_merge cfEx ⟨true, "A", "uA", "descA"⟩ [aOld, bEnt] rfl rfl
  exact ⟨h.1.trans (by decide), h.2.2.trans (by decide)⟩

/-- C10: when the manifest directory contains no file matching
`*_playlist.json`, `generate_catalog` returns `None` without writing a
catalog document (rather than writing one with an empty playlists list),
and the subsequent index step, handed no catalog path, also produces no
output. -/
theorem c10_no_playlists_no_output (catalogName description createdBy uuid timestamp : String)
    (files : List PlaylistFile) (append : Bool) (existing : IndexFileState)
    (h : files.filter (fun f => endsWithStr f.fname "_playlist.json") = []) :
    generate_catalog catalogName description createdBy uuid timestamp files = none ∧
    generate_index append none existing = none := by
  refine ⟨?_, rfl⟩
  simp [generate_catalog, h]

/-- C10 witness: a manifest directory holding only a video manifest (no
playlist files) yields no catalog and no index. -/
theorem c10_no_playlists_no_output_witness :
    generate_catalog "n" "d" "c" "u" "t" [⟨"clip.mp4_video_manifest.json", none, "ck", 3⟩] =
      none ∧
    generate_index true none (.readable [⟨some "./c.json", "C", "ck", 2, "uC", "dC"⟩]) =
      none := by
  exact c10_no_playlists_no_output "n" "d" "c" "u" "t"
    [⟨"clip.mp4_video_manifest.json", none, "ck", 3⟩] true
    (.readable [⟨some "./c.json", "C", "ck", 2, "uC", "dC"⟩]) (by decide)

/-- C4: for every diagnostic text, the codec field of `get_video_details`
is exactly one of the fixed enumeration `video/av1`, the vp09 MIME string,
the vvc MIME string, or the unknown value (literal `"Unknown"`); the
branches are tested in the order av1, vp9, vvc, and an unrecognized codec
yields the unknown value rather than an error. -/
theorem c4_codec_enumeration (fmtG : String → String) (s : String) :
    ((ub.get_video_details fmtG (Except.ok s)).1 = .str "video/av1" ∨
      (ub.get_video_details fmtG (Except.ok s)).1 = .str "video/mp4; codecs=\"vp09\"" ∨
      (ub.get_video_details fmtG (Except.ok s)).1 = .str "video/mp4; codecs=\"vvc\"" ∨
      (ub.get_video_details fmtG (Except.ok s)).1 = .str "Unknown") ∧
    (strContains s "Video: av1" = true →
      (ub.get_video_details fmtG (Except.ok s)).1 = .str "video/av1") ∧
    (strContains s "Video: av1" = false → strContains s "Video: vp9" = true →
      (ub.get_video_details fmtG (Except.ok s)).1 = .str "video/mp4; codecs=\"vp09\"") ∧
    (strContains s "Video: av1" = false → strContains s "Video: vp9" = false →
      strContains s "Video: vvc" = true →
      (ub.get_video_details fmtG (Except.ok s)).1 = .str "video/mp4; codecs=\"vvc\"") ∧
    (strContains s "Video: av1" = false → strContains s "Video: vp9" = false →
      strContains s "Video: vvc" = false →
      (ub.get_video_details fmtG (Except.ok s)).1 = .str "Unknown") := by
  have key : (ub.get_video_details fmtG (Except.ok s)).1 =
      .str (if strContains s "Video: av1" then "video/av1"
        else if strContains s "Video: vp9" then "video/mp4; codecs=\"vp09\""
        else if strContains s "Video: vvc" then "video/mp4; codecs=\"vvc\""
        else "Unknown") := rfl
  rw [key]
  cases h1 : strContains s "Video: av1" <;>
    cases h2 : strContains s "Video: vp9" <;>
      cases h3 : strContains s "Video: vvc" <;>
        simp

/-- C4 witness: a diagnostic text containing `Video: vp9` (and no earlier
`Video: av1`) yields the vp09 MIME string. -/
theorem c4_codec_enumeration_witness :
    (ub.get_video_details (fun x => x)
        (Except.ok "Stream #0:0: Video: vp9, yuv420p")).1 =
      .str "video/mp4; codecs=\"vp09\"" := by
  exact (c4_codec_enumeration (fun x => x) "Stream #0:0: Video: vp9, yuv420p").2.2.1
    (by decide) (by decide)

/-- C6: for every diagnostic text whose leftmost `Duration: HH:MM:SS.CC`
match has numeric groups `(H, M, S, C)`, `get_video_details` returns
`duration_ms = ((H*3600 + M*60 + S)*1000) + C*10`, and for every text with
no such match the duration field is the null value rather than an error. -/
theorem c6_duration_parsing (fmtG : String → String) (s : String) :
    (∀ h m sec c, findDuration s.toList = some (h, m, sec, c) →
      (ub.get_video_details fmtG (Except.ok s)).2.1 =
        .int ((h * 3600 + m * 60 + sec) * 1000 + c * 10)) ∧
    (findDuration s.toList = none →
      (ub.get_video_details fmtG (Except.ok s)).2.1 = .pynone) := by
  have key : (ub.get_video_details fmtG (Except.ok s)).2.1 =
      (match findDuration s.toList with
        | some (h, m, sec, c) => PyVal.int ((h * 3600 + m * 60 + sec) * 1000 + c * 10)
        | none => PyVal.pynone) := rfl
  constructor
  · intro h m sec c hfind
    rw [key, hfind]
  · intro hfind
    rw [key, hfind]

/-- C6 witness: text containing `Duration: 01:02:03.45` yields
`duration_ms = 3723450`. -/
theorem c6_duration_parsing_witness :
    findDuration "x Duration: 01:02:03.45 y".toList = some (1, 2, 3, 45) ∧
    (ub.get_video_details (fun x => x) (Except.ok "x Duration: 01:02:03.45 y")).2.1 =
      .int 3723450 := by
  refine ⟨by decide, ?_⟩
  have h := (c6_duration_parsing (fun x => x) "x Duration: 01:02:03.45 y").1 1 2 3 45
    (by decide)
  have harith : ((1 * 3600 + 2 * 60 + 3) * 1000 + 45 * 10 : Nat) = 3723450 := by norm_num
  rw [harith] at h
  exact h

/-- A codec-branch title is never the empty string (it ends in `"fps"`), so
the base-name fallback is not taken on the codec branches. -/
theorem title_base_ne_empty (a r fr : String) : a ++ r ++ "p" ++ fr ++ "fps" ≠ "" := by
  intro h
  have hl := congrArg String.length h
  rw [String.length_append, String.length_append, String.length_append,
    String.length_append] at hl
  have h1 : ("p" : String).length = 1 := rfl
  have h2 : ("fps" : String).length = 3 := rfl
  have h3 : ("" : String).length = 0 := rfl
  rw [h1, h2, h3] at hl
  omega

/-- C3 counterexample: for a filename with an extension and an unrecognized
MIME type, the standalone video builder's `generate_header_title` returns
the base name *with* its extension (`clip.mp4`), not the base name without
its extension (`clip`) as the claim states for every implementation. -/
theorem c3_counterexample :
    vb.generate_header_title "media/clip.mp4" "Unknown" "640X480" "25" = "clip.mp4" ∧
    pathStem "media/clip.mp4" = "clip" ∧
    ("clip.mp4" : String) ≠ "clip" :=
  ⟨by decide, by decide, by decide⟩

/-- C3 amended: both `generate_header_title` implementations return
`"<codec>-<resolution>p<framerate>fps"` with codec `av1`, `vvc` or `vp9`
when the lower-cased MIME type contains `av1`, `vvc` or `vp09` (tested in
that order); otherwise the unified builder falls back to the file's base
name without its extension while the standalone video builder falls back to
the base name keeping its extension; if the original filename contains any
of `fd0`, `fd1`, `fd2`, the suffix `-<marker>` for the first one found in
the priority order `fd0, fd1, fd2` is appended. -/
theorem c3_title_derivation (f m r fr : String) :
    (strContains (lowerStr m) "av1" = true →
      ub.generate_header_title f m r fr = "av1-" ++ r ++ "p" ++ fr ++ "fps" ++ fdSuffix f ∧
      vb.generate_header_title f m r fr = "av1-" ++ r ++ "p" ++ fr ++ "fps" ++ fdSuffix f) ∧
    (strContains (lowerStr m) "av1" = false → strContains (lowerStr m) "vvc" = true →
      ub.generate_header_title f m r fr = "vvc-" ++ r ++ "p" ++ fr ++ "fps" ++ fdSuffix f ∧
      vb.generate_header_title f m r fr = "vvc-" ++ r ++ "p" ++ fr ++ "fps" ++ fdSuffix f) ∧
    (strContains (lowerStr m) "av1" = false → strContains (lowerStr m) "vvc" = false →
      strContains (lowerStr m) "vp09" = true →
      ub.generate_header_title f m r fr = "vp9-" ++ r ++ "p" ++ fr ++ "fps" ++ fdSuffix f ∧
      vb.generate_header_title f m r fr = "vp9-" ++ r ++ "p" ++ fr ++ "fps" ++ fdSuffix f) ∧
    (strContains (lowerStr m) "av1" = false → strContains (lowerStr m) "vvc" = false →
      strContains (lowerStr m) "vp09" = false →
      ub.generate_header_title f m r fr = pathStem f ++ fdSuffix f ∧
      vb.generate_header_title f m r fr = lastComp f ++ fdSuffix f) ∧
    (strContains f "fd0" = true → fdSuffix f = "-fd0") ∧
    (strContains f "fd0" = false → strContains f "fd1" = true → fdSuffix f = "-fd1") ∧
    (strContains f "fd0" = false → strContains f "fd1" = false →
      strContains f "fd2" = true → fdSuffix f = "-fd2") ∧
    (strContains f "fd0" = false → strContains f "fd1" = false →
      strContains f "fd2" = false → fdSuffix f = "") := by
  refine ⟨?_, ?_, ?_, ?_, ?_, ?_, ?_, ?_⟩
  · intro h1
    constructor <;>
      simp [ub.generate_header_title, vb.generate_header_title, h1,
        title_base_ne_empty]
  · intro h1 h2
    constructor <;>
      simp [ub.generate_header_title, vb.generate_header_title, h1, h2,
        title_base_ne_empty]
  · intro h1 h2 h3
    constructor <;>
      simp [ub.generate_header_title, vb.generate_header_title, h1, h2, h3,
        title_base_ne_empty]
  · intro h1 h2 h3
    constructor <;>
      simp [ub.generate_header_title, vb.generate_header_title, h1, h2, h3]
  · intro h1
    simp [fdSuffix, h1]
  · intro h1 h2
    simp [fdSuffix, h1, h2]
  · intro h1 h2 h3
    simp [fdSuffix, h1, h2, h3]
  · intro h1 h2 h3
    simp [fdSuffix, h1, h2, h3]

/-- C3 witness: a filename containing `fd1` with an AV1 MIME type,
resolution `1920X1080` and frame rate `30` yields the title
`av1-1920X1080p30fps-fd1` in both implementations. -/
theorem c3_title_derivation_witness :
    ub.generate_header_title "vid_fd1.mp4" "video/av1" "1920X1080" "30" =
      "av1-1920X1080p30fps-fd1" ∧
    vb.generate_header_title "vid_fd1.mp4" "video/av1" "1920X1080" "30" =
      "av1-1920X1080p30fps-fd1" := by
  have h := (c3_title_derivation "vid_fd1.mp4" "video/av1" "1920X1080" "30").1 (by decide)
  exact ⟨h.1.trans (by decide), h.2.trans (by decide)⟩

/-- Components of a child relative path come from the parent path or are
the child's own name. -/
theorem mem_relChild (rel : List String) (name c : String)
    (hc : c ∈ vb.relChild rel name) : c = name ∨ c ∈ rel := by
  unfold vb.relChild at hc
  by_cases h : rel = ["."]
  · rw [if_pos h] at hc
    simp at hc
    exact Or.inl hc
  · rw [if_neg h] at hc
    rcases List.mem_append.1 hc with h' | h'
    · exact Or.inr h'
    · simp at h'
      exact Or.inl h'

mutual

/-- Every path produced by the video builder's walk is `media` plus a run
of components that are neither `.DS_Store` nor `__MACOSX` plus a file name
that is not `.DS_Store`, provided the current relative path is clean. -/
theorem vbWalkTree_clean (rel : List String) (t : FSTree)
    (hrel : ∀ c ∈ rel, c ≠ ".DS_Store" ∧ c ≠ "__MACOSX") :
    ∀ p ∈ vb.vbWalkTree rel t, ∃ q fn, p = "media" :: q ++ [fn] ∧
      fn ≠ ".DS_Store" ∧ ∀ c ∈ q, c ≠ ".DS_Store" ∧ c ≠ "__MACOSX" := by
  cases t with
  | node files dirs =>
    intro p hp
    rw [vb.vbWalkTree, List.mem_append] at hp
    rcases hp with hp | hp
    · rcases List.mem_map.1 hp with ⟨n, hn, rfl⟩
      rcases List.mem_filter.1 hn with ⟨-, hne⟩
      exact ⟨rel, n, by simp, by simpa using hne, hrel⟩
    · exact vbWalkDirs_clean rel dirs hrel p hp

/-- Companion of `vbWalkTree_clean` for the subdirectory loop. -/
theorem vbWalkDirs_clean (rel : List String) (ds : DirList)
    (hrel : ∀ c ∈ rel, c ≠ ".DS_Store" ∧ c ≠ "__MACOSX") :
    ∀ p ∈ vb.vbWalkDirs rel ds, ∃ q fn, p = "media" :: q ++ [fn] ∧
      fn ≠ ".DS_Store" ∧ ∀ c ∈ q, c ≠ ".DS_Store" ∧ c ≠ "__MACOSX" := by
  cases ds with
  | dnil => intro p hp; simp [vb.vbWalkDirs] at hp
  | dcons name tree rest =>
    intro p hp
    rw [vb.vbWalkDirs] at hp
    by_cases h : name = ".DS_Store" ∨ name = "__MACOSX"
    · rw [if_pos h] at hp
      exact vbWalkDirs_clean rel rest hrel p hp
    · rw [if_neg h] at hp
      push_neg at h
      rcases List.mem_append.1 hp with hp | hp
      · refine vbWalkTree_clean (vb.relChild rel name) tree ?_ p hp
        intro c hc
        rcases mem_relChild rel name c hc with rfl | hc'
        · exact h
        · exact hrel c hc'
      · exact vbWalkDirs_clean rel rest hrel p hp

end

/-- C8 counterexample: a regular *file* named `__MACOSX` is not excluded —
discovery returns a path whose (file) component equals `__MACOSX`,
contradicting the claim that no returned path contains such a component
whether it occurs as a file or as a directory. -/
theorem c8_counterexample :
    ub.get_video_files_from_folder (.present true (.node ["__MACOSX"] .dnil)) =
      .ok [["__MACOSX"]] ∧
    "__MACOSX" ∈ (["__MACOSX"] : List String) :=
  ⟨rfl, by simp⟩

/-- C8 amended: for every tree and nesting depth, no path returned by
either discovery function contains a component equal to `.DS_Store`, and no
*directory* component (every component but the last) equals `__MACOSX`; a
regular file named `__MACOSX` is, however, still returned. -/
theorem c8_walk_excludes_artifacts (t : FSTree) :
    (∀ res, ub.get_video_files_from_folder (.present true t) = .ok res →
      ∀ p ∈ res, (∀ c ∈ p, c ≠ ".DS_Store") ∧ ∀ c ∈ p.dropLast, c ≠ "__MACOSX") ∧
    (∀ p ∈ vb.get_video_files_from_folder (.present true t),
      (∀ c ∈ p, c ≠ ".DS_Store") ∧ ∀ c ∈ p.dropLast, c ≠ "__MACOSX") := by
  constructor
  · intro res hres p hp
    have hres' : Except.ok (ε := DiscoveryError) (walkTree [] t) = .ok res := hres
    injection hres' with h
    subst h
    rcases walkTree_clean [] t p hp with ⟨mid, fn, rfl, hfn, hmid1, hmid2⟩
    rw [List.nil_append]
    constructor
    · intro c hc
      rcases List.mem_append.1 hc with hc | hc
      · intro he; subst he; exact hmid1 hc
      · simp at hc; subst hc; exact hfn
    · rw [List.dropLast_concat]
      intro c hc he
      subst he
      exact hmid2 hc
  · intro p hp
    have hclean : ∀ c ∈ (["."] : List String), c ≠ ".DS_Store" ∧ c ≠ "__MACOSX" := by
      intro c hc
      simp at hc
      subst hc
      exact ⟨by decide, by decide⟩
    rcases vbWalkTree_clean ["."] t hclean p hp with ⟨q, fn, rfl, hfn, hq⟩
    constructor
    · intro c hc
      rcases List.mem_cons.1 hc with rfl | hc
      · decide
      · rcases List.mem_append.1 hc with hc | hc
        · exact (hq c hc).1
        · simp at hc; subst hc; exact hfn
    · rw [show ("media" :: q ++ [fn] : List String) = ("media" :: q) ++ [fn] from rfl,
        List.dropLast_concat]
      intro c hc
      rcases List.mem_cons.1 hc with rfl | hc
      · decide
      · exact (hq c hc).2

/-- Directory tree used by the C8 witness: a `.DS_Store` file, a pruned
`__MACOSX` directory, and one real video file. -/
def tEx : FSTree :=
  .node [".DS_Store", "a.mp4"] (.dcons "__MACOSX" (.node ["z"] .dnil) .dnil)

/-- C8 witness: on a tree with macOS artifacts at mixed depths, the
returned path list is clean in the amended sense. -/
theorem c8_walk_excludes_artifacts_witness :
    ub.get_video_files_from_folder (.present true tEx) = .ok [["a.mp4"]] ∧
    (∀ c ∈ (["a.mp4"] : List String), c ≠ ".DS_Store") ∧
    (∀ c ∈ (["a.mp4"] : List String).dropLast, c ≠ "__MACOSX") := by
  have h := (c8_walk_excludes_artifacts tEx).1 [["a.mp4"]] rfl ["a.mp4"] (by simp)
  exact ⟨rfl, h.1, h.2⟩

/-- A concrete digest instance for the C2 theorems: concatenate the file's
lines (any function of the file bytes is a legitimate instance of the
abstract `getChecksum`). -/
def joinLines : List String → String
  | [] => ""
  | s :: t => s ++ joinLines t

/-- Stable per-video inputs used by the C2 theorems. -/
def vEx : VideoInput :=
  ⟨"media/clip.mp4", "clip.mp4", "../media/clip.mp4", "ck0", 9, "video/av1",
    some 1000, some "640X480", "25"⟩

/-- C2 counterexample: two runs on unchanged input that differ only in the
manifest header's regenerated uuid produce *different* checksum fields in
the playlist-asset record — the checksum is computed from the regenerated
manifest file, whose bytes contain the fresh uuid — contradicting the claim
that the recorded checksum fields are identical across the two runs. -/
theorem c2_counterexample :
    ¬((mkPlaylist joinLines "c" vEx "uuid-a" "ts" "pl-u" "pl-t").media_assets.map
        PlaylistAsset.checksum =
      (mkPlaylist joinLines "c" vEx "uuid-b" "ts" "pl-u" "pl-t").media_assets.map
        PlaylistAsset.checksum) := by
  decide

/-- C2 amended: across two runs on unchanged input, every content field is
stable — the manifest's media asset, header name and description, and the
playlist-asset's name, url and description — but the checksum recorded in a
playlist-asset record equals the digest of that run's regenerated manifest
file (and the catalog-level asset's checksum the digest of the regenerated
playlist file), and those file bytes differ whenever the regenerated uuid
differs, so the recorded checksum fields are not uuid-independent. -/
theorem c2_overwrite_stability (digest : List String → String) (createdBy : String)
    (v : VideoInput) (u1 t1 p1 q1 u2 t2 p2 q2 : String) :
    (mkManifest createdBy v u1 t1).asset = (mkManifest createdBy v u2 t2).asset ∧
    (mkManifest createdBy v u1 t1).hdr.name = (mkManifest createdBy v u2 t2).hdr.name ∧
    (mkManifest createdBy v u1 t1).hdr.description =
      (mkManifest createdBy v u2 t2).hdr.description ∧
    (mkPlaylist digest createdBy v u1 t1 p1 q1).media_assets.map PlaylistAsset.name =
      (mkPlaylist digest createdBy v u2 t2 p2 q2).media_assets.map PlaylistAsset.name ∧
    (mkPlaylist digest createdBy v u1 t1 p1 q1).media_assets.map PlaylistAsset.url =
      (mkPlaylist digest createdBy v u2 t2 p2 q2).media_assets.map PlaylistAsset.url ∧
    (mkPlaylist digest createdBy v u1 t1 p1 q1).media_assets.map PlaylistAsset.description =
      (mkPlaylist digest createdBy v u2 t2 p2 q2).media_assets.map
        PlaylistAsset.description ∧
    (mkPlaylist digest createdBy v u1 t1 p1 q1).media_assets.map PlaylistAsset.checksum =
      [digest (Manifest.lines (mkManifest createdBy v u1 t1))] ∧
    (mkPlaylist digest createdBy v u2 t2 p2 q2).media_assets.map PlaylistAsset.checksum =
      [digest (Manifest.lines (mkManifest createdBy v u2 t2))] ∧
    (u1 ≠ u2 → Manifest.lines (mkManifest createdBy v u1 t1) ≠
      Manifest.lines (mkManifest createdBy v u2 t2)) ∧
    (mkCatalogPlaylistAsset digest createdBy v u1 t1 p1 q1).checksum =
      digest (PlaylistDoc.lines (mkPlaylist digest createdBy v u1 t1 p1 q1)) ∧
    (p1 ≠ p2 → PlaylistDoc.lines (mkPlaylist digest createdBy v u1 t1 p1 q1) ≠
      PlaylistDoc.lines (mkPlaylist digest createdBy v u2 t2 p2 q2)) := by
  refine ⟨rfl, rfl, rfl, rfl, rfl, rfl, rfl, rfl, ?_, rfl, ?_⟩
  · intro hne heq
    have h : some u1 = some u2 := congrArg (fun l => l.get? 3) heq
    exact hne (Option.some.inj h)
  · intro hne heq
    have h : some p1 = some p2 := congrArg (fun l => l.get? 3) heq
    exact hne (Option.some.inj h)

/-- C2 witness: with a concrete digest and uuids `uuid-a` / `uuid-b`, the
media asset is stable across the runs while the regenerated manifest files'
bytes differ. -/
theorem c2_overwrite_stability_witness :
    (mkManifest "c" vEx "uuid-a" "ts").asset = (mkManifest "c" vEx "uuid-b" "ts").asset ∧
    Manifest.lines (mkManifest "c" vEx "uuid-a" "ts") ≠
      Manifest.lines (mkManifest "c" vEx "uuid-b" "ts") := by
  have h := c2_overwrite_stability joinLines "c" vEx "uuid-a" "ts" "pa" "qa"
    "uuid-b" "ts" "pb" "qb"
  exact ⟨h.1, h.2.2.2.2.2.2.2.2.1 (by decide)⟩

end VcatSpec
